import Mathlib

/-!
Shallow embedding of the decay-fitting and airflow-derivation engine of the
CO-detector ventilation project (source file `src/airflowcalculator.py`),
together with machine-checked statements of the specification claims about it.

Python floats are modelled by real numbers.  The nonlinear optimizer
`scipy.optimize.curve_fit` is a third-party library external to the
repository; the engine is therefore parametrized by a fitter (`Fitter`), and
the fitter's least-squares contract is modelled from the spec via the
sum-of-squared-residuals function `SSR`.
-/

namespace AirFlow

/-- Weight constant FURNITURE of the python enumeration
AirFlowInhibitorWeights (value 3). -/
def AirFlowInhibitorWeights.FURNITURE : ℝ := 3

/-- Weight constant NUM_FANS of the python enumeration
AirFlowInhibitorWeights (value 2). -/
def AirFlowInhibitorWeights.NUM_FANS : ℝ := 2

/-- Weight constant RESIDENTIAL_CFM of the python enumeration
AirFlowInhibitorWeights (value 15). -/
def AirFlowInhibitorWeights.RESIDENTIAL_CFM : ℝ := 15

/-- Module constant NUM_FURNITURE of the python enumeration Constants
(value 6). -/
def Constants.NUM_FURNITURE : ℝ := 6

/-- Module constant INDOOR_VENT_SPEED of the python enumeration Constants
(value 0.5). -/
def Constants.INDOOR_VENT_SPEED : ℝ := 0.5

/-- Module constant PEOPLE of the python enumeration Constants (value 4). -/
def Constants.PEOPLE : ℝ := 4

/-- One timestamped CO concentration sample, as appended to CO_history by
add_measurement. -/
structure Measurement where
  timestamp : ℝ
  CO_ppm : ℝ

/-- The dictionary returned by calculate_airflow on success, with its four
entries ACH, airflow_m3h, airflow_CFM and confidence. -/
structure AirflowEstimate where
  ACH : ℝ
  airflow_m3h : ℝ
  airflow_CFM : ℝ
  confidence : ℝ

/-- The state of a python AirFlowCalculator object: the room volume passed to
the constructor and the CO_history list. -/
structure AirFlowCalculator where
  room_volume : ℝ
  CO_history : List Measurement

/-- The method add_measurement: appends one (timestamp, CO_ppm) pair to
CO_history. -/
def add_measurement (c : AirFlowCalculator) (timestamp CO_ppm : ℝ) :
    AirFlowCalculator :=
  { c with CO_history := c.CO_history ++ [⟨timestamp, CO_ppm⟩] }

/-- The window taken by calculate_airflow: the python slice
CO_history[-10:], i.e. the last (at most) 10 entries. -/
def recent_data (CO_history : List Measurement) : List Measurement :=
  CO_history.drop (CO_history.length - 10)

/-- The concentration of the first sample of a window (python CO_vals[0]). -/
def first_CO (data : List Measurement) : ℝ :=
  (data.map Measurement.CO_ppm).headD 0

/-- The concentration of the last sample of a window (python CO_vals[-1]). -/
def last_CO (data : List Measurement) : ℝ :=
  (data.map Measurement.CO_ppm).getLastD 0

/-- The timestamp of the first sample of a window (python times[0], the
reference time t0 of the decay model built inside calculate_airflow). -/
def t_first (data : List Measurement) : ℝ :=
  (data.map Measurement.timestamp).headD 0

/-- The exponential-decay model fitted by calculate_airflow:
decay(t) = C0 * exp(-lambd * (t - t0)), with t0 the first timestamp of the
window. -/
noncomputable def decay (t0 t C0 lambd : ℝ) : ℝ :=
  C0 * Real.exp (-lambd * (t - t0))

/-- Modelled from the spec: the objective that scipy.optimize.curve_fit
minimizes for the decay model - the sum of squared residuals between the
model and the observed concentrations over the window.  curve_fit itself is
external to the repository. -/
noncomputable def SSR (data : List Measurement) (t0 C0 lambd : ℝ) : ℝ :=
  (data.map fun m => (m.CO_ppm - decay t0 m.timestamp C0 lambd) ^ 2).sum

/-- Modelled from the spec: the type of the nonlinear fitter standing for
scipy.optimize.curve_fit applied to the decay model.  It receives the window
and the initial guess p0 and returns either fitted parameters (C0, lambda)
or the optimizer's failure (the exception caught by calculate_airflow). -/
def Fitter : Type :=
  List Measurement → ℝ × ℝ → Except String (ℝ × ℝ)

/-- The local helper sigmoid of calculate_airflow:
sigmoid(x) = 1 / (1 + e^(-x)). -/
noncomputable def sigmoid (x : ℝ) : ℝ :=
  1 / (1 + Real.exp (-x))

/-- Python round(x, 2): round to 2 decimal places.  Mathlib round is
round-half-up; it agrees with python's rounding at every input whose
hundredfold is not exactly a half-integer, which covers all values taken by
the sigmoid below. -/
noncomputable def round2 (x : ℝ) : ℝ :=
  (round (x * 100) : ℝ) / 100

/-- The local helper quant_confidence of calculate_airflow: base score 50,
minus 25 for the "low" bucket else plus 25, plus the weighted inhibitor
factors, normalized by the sigmoid and rounded to 2 decimals. -/
noncomputable def quant_confidence (confidence : String)
    (num_furniture indoor_vent_speed current_capacity : ℝ) : ℝ :=
  let count : ℝ := if confidence = "low" then 50 - 25 else 50 + 25
  let add_factors :=
    num_furniture * AirFlowInhibitorWeights.FURNITURE +
    indoor_vent_speed * AirFlowInhibitorWeights.NUM_FANS +
    current_capacity * AirFlowInhibitorWeights.RESIDENTIAL_CFM
  let cp_value := count + add_factors
  round2 (sigmoid cp_value)

/-- The method calculate_airflow, parametrized by the external fitter.
Returns none where the python code returns None: fewer than 2 measurements,
window not decaying (first concentration less than or equal to the last), or
the fit raising an exception.  Otherwise returns the estimate dictionary. -/
noncomputable def calculate_airflow (fit : Fitter) (c : AirFlowCalculator) :
    Option AirflowEstimate :=
  if c.CO_history.length < 2 then none
  else
    let recent := recent_data c.CO_history
    if first_CO recent ≤ last_CO recent then none
    else
      match fit recent (first_CO recent, 0.001) with
      | Except.error _ => none
      | Except.ok (_, lambda_per_sec) =>
        let ACH := lambda_per_sec * 3600
        let airflow_m3h := ACH * c.room_volume
        let airflow_CFM := airflow_m3h * 0.588
        let bin_cval := if 5 ≤ recent.length then "high" else "low"
        some ⟨ACH, airflow_m3h, airflow_CFM,
          quant_confidence bin_cval Constants.NUM_FURNITURE
            Constants.INDOOR_VENT_SPEED Constants.PEOPLE⟩

/-- The Confidence Scorer exactly as the specification words it: bucket
"high" iff the window has at least 5 samples, base 50 adjusted by plus or
minus 25, additive term furniture*3 + vent_speed*2 + occupants*15, then
sigmoid and rounding.  This is the spec side of the refinement check for the
confidence algorithm. -/
noncomputable def confidence_spec (window_len : ℕ)
    (furniture_count vent_speed occupant_count : ℝ) : ℝ :=
  round2 (sigmoid ((if 5 ≤ window_len then (50 : ℝ) + 25 else 50 - 25) +
    (furniture_count * 3 + vent_speed * 2 + occupant_count * 15)))

/-- The Window Selector exactly as the specification words it:
latest_window(n) returns the last n entries in insertion order, or all
entries if fewer than n exist.  Spec side of the windowing refinement. -/
def latest_window (n : ℕ) (log : List Measurement) : List Measurement :=
  if log.length ≤ n then log else log.drop (log.length - n)

section Helpers

lemma exp_pos' (x : ℝ) : 0 < Real.exp x := Real.exp_pos x

lemma sigmoid_pos (x : ℝ) : 0 < sigmoid x := by
  unfold sigmoid
  positivity

lemma sigmoid_lt_one (x : ℝ) : sigmoid x < 1 := by
  unfold sigmoid
  rw [div_lt_one (by positivity)]
  linarith [Real.exp_pos (-x)]

lemma exp_large {x : ℝ} (hx : 104 ≤ x) : (199 : ℝ) < Real.exp x := by
  have h2 : (2 : ℝ) ≤ Real.exp 1 := by
    have := Real.exp_one_gt_d9
    linarith
  have hpow : (2 : ℝ) ^ (8 : ℕ) ≤ Real.exp 1 ^ (8 : ℕ) :=
    pow_le_pow_left₀ (by norm_num) h2 8
  have hexp8 : Real.exp 1 ^ (8 : ℕ) = Real.exp 8 := by
    rw [← Real.exp_nat_mul]
    norm_num
  have h8x : Real.exp 8 ≤ Real.exp x := Real.exp_le_exp.mpr (by linarith)
  have : (199 : ℝ) < (2 : ℝ) ^ (8 : ℕ) := by norm_num
  linarith [hpow, hexp8 ▸ hpow]

lemma sigmoid_ge_of_large {x : ℝ} (hx : 104 ≤ x) :
    (199 / 200 : ℝ) ≤ sigmoid x := by
  have hE : (199 : ℝ) < Real.exp x := exp_large hx
  have hEpos : 0 < Real.exp x := Real.exp_pos x
  unfold sigmoid
  rw [Real.exp_neg]
  have hinv : (Real.exp x)⁻¹ ≤ 1 / 199 := by
    rw [inv_eq_one_div]
    apply div_le_div_of_nonneg_left (by norm_num) (by norm_num) (le_of_lt hE)
  have hpos : (0 : ℝ) < 1 + (Real.exp x)⁻¹ := by positivity
  rw [div_le_div_iff₀ (by norm_num) hpos]
  nlinarith [hinv]

lemma round2_sigmoid_eq_one {x : ℝ} (hx : 104 ≤ x) :
    round2 (sigmoid x) = 1 := by
  have h1 : (199 / 200 : ℝ) ≤ sigmoid x := sigmoid_ge_of_large hx
  have h2 : sigmoid x < 1 := sigmoid_lt_one x
  unfold round2
  have hround : round (sigmoid x * 100) = 100 := by
    rw [round_eq]
    have : (100 : ℤ) ≤ sigmoid x * 100 + 1 / 2 := by
      push_cast
      nlinarith
    have h' : sigmoid x * 100 + 1 / 2 < (100 : ℤ) + 1 := by
      push_cast
      nlinarith
    rw [Int.floor_eq_iff]
    constructor
    · exact_mod_cast this
    · exact_mod_cast h'
  rw [hround]
  norm_num

lemma quant_confidence_eq_one (b : String) :
    quant_confidence b Constants.NUM_FURNITURE Constants.INDOOR_VENT_SPEED
      Constants.PEOPLE = 1 := by
  unfold quant_confidence Constants.NUM_FURNITURE Constants.INDOOR_VENT_SPEED
    Constants.PEOPLE AirFlowInhibitorWeights.FURNITURE
    AirFlowInhibitorWeights.NUM_FANS AirFlowInhibitorWeights.RESIDENTIAL_CFM
  split_ifs with hb
  · apply round2_sigmoid_eq_one
    norm_num
  · apply round2_sigmoid_eq_one
    norm_num

/-- Inversion: a successful calculate_airflow call passed every gate and its
result fields are exactly the derived expressions over the fitted lambda. -/
lemma calculate_airflow_some {fit : Fitter} {c : AirFlowCalculator}
    {est : AirflowEstimate} (h : calculate_airflow fit c = some est) :
    ∃ C0 lam, 2 ≤ c.CO_history.length ∧
      ¬ first_CO (recent_data c.CO_history) ≤
          last_CO (recent_data c.CO_history) ∧
      fit (recent_data c.CO_history)
          (first_CO (recent_data c.CO_history), 0.001) = Except.ok (C0, lam) ∧
      est = ⟨lam * 3600, lam * 3600 * c.room_volume,
        lam * 3600 * c.room_volume * 0.588,
        quant_confidence
          (if 5 ≤ (recent_data c.CO_history).length then "high" else "low")
          Constants.NUM_FURNITURE Constants.INDOOR_VENT_SPEED
          Constants.PEOPLE⟩ := by
  simp only [calculate_airflow] at h
  split at h
  · exact Option.noConfusion h
  · split at h
    · exact Option.noConfusion h
    · split at h
      · exact Option.noConfusion h
      · next C0 lam heq =>
        refine ⟨C0, lam, by omega, by assumption, heq, ?_⟩
        simp only [Option.some.injEq] at h
        exact h.symm

/-- Evaluation: when every gate passes and the fitter answers ok, the
returned estimate is the derived dictionary. -/
lemma calculate_airflow_ok {fit : Fitter} {c : AirFlowCalculator}
    {C0 lam : ℝ} (h2 : 2 ≤ c.CO_history.length)
    (hdec : ¬ first_CO (recent_data c.CO_history) ≤
      last_CO (recent_data c.CO_history))
    (hfit : fit (recent_data c.CO_history)
      (first_CO (recent_data c.CO_history), 0.001) = Except.ok (C0, lam)) :
    calculate_airflow fit c =
      some ⟨lam * 3600, lam * 3600 * c.room_volume,
        lam * 3600 * c.room_volume * 0.588,
        quant_confidence
          (if 5 ≤ (recent_data c.CO_history).length then "high" else "low")
          Constants.NUM_FURNITURE Constants.INDOOR_VENT_SPEED
          Constants.PEOPLE⟩ := by
  simp only [calculate_airflow]
  rw [if_neg (by omega), if_neg hdec, hfit]

lemma round2_mem_unit {x : ℝ} (h0 : 0 ≤ x) (h1 : x ≤ 1) :
    0 ≤ round2 x ∧ round2 x ≤ 1 := by
  unfold round2
  have hlo : (0 : ℤ) ≤ round (x * 100) := by
    rw [round_eq]
    apply Int.floor_nonneg.mpr
    nlinarith
  have hhi : round (x * 100) ≤ 100 := by
    rw [round_eq]
    have : x * 100 + 1 / 2 ≤ (201 : ℝ) / 2 := by nlinarith
    calc ⌊x * 100 + 1 / 2⌋ ≤ ⌊(201 : ℝ) / 2⌋ := Int.floor_le_floor this
      _ = 100 := by norm_num
  constructor
  · positivity
  · rw [div_le_one (by norm_num)]
    exact_mod_cast hhi

lemma quant_confidence_mem_unit (b : String) (f v o : ℝ) :
    0 ≤ quant_confidence b f v o ∧ quant_confidence b f v o ≤ 1 := by
  unfold quant_confidence
  exact round2_mem_unit (le_of_lt (sigmoid_pos _)) (le_of_lt (sigmoid_lt_one _))

lemma quant_confidence_eq_spec (n : ℕ) (f v o : ℝ) :
    quant_confidence (if 5 ≤ n then "high" else "low") f v o =
      confidence_spec n f v o := by
  unfold quant_confidence confidence_spec AirFlowInhibitorWeights.FURNITURE
    AirFlowInhibitorWeights.NUM_FANS AirFlowInhibitorWeights.RESIDENTIAL_CFM
  by_cases h : 5 ≤ n
  · rw [if_pos h, if_pos h, if_neg (by simp)]
  · rw [if_neg h, if_neg h, if_pos rfl]

end Helpers

/-- C2 (amended): for every fitter, room volume and log with fewer than 2
measurements, calculate_airflow returns none - a bare no-result that carries
no reason tag. -/
theorem insufficient_data_returns_none (fit : Fitter) (c : AirFlowCalculator)
    (h : c.CO_history.length < 2) : calculate_airflow fit c = none := by
  simp only [calculate_airflow]
  rw [if_pos h]

theorem insufficient_data_returns_none_witness :
    calculate_airflow (fun _ _ => Except.ok (400, 0.001))
      ⟨48, [⟨0, 400⟩]⟩ = none :=
  insufficient_data_returns_none (fun _ _ => Except.ok (400, 0.001))
    ⟨48, [⟨0, 400⟩]⟩ (by norm_num)

/-- C2 (counterexample to the claim as stated): three calls failing for the
three different reasons - fewer than 2 measurements, non-decaying window,
optimizer failure - all return exactly the same bare none, so the returned
no-result outcome carries no reason tag distinguishing InsufficientData,
NotDecaying and FitFailed. -/
theorem failure_reasons_indistinguishable :
    calculate_airflow (fun _ _ => Except.error "fit failed")
      ⟨48, [⟨0, 400⟩]⟩ = none ∧
    calculate_airflow (fun _ _ => Except.error "fit failed")
      ⟨48, [⟨0, 300⟩, ⟨30, 400⟩]⟩ = none ∧
    calculate_airflow (fun _ _ => Except.error "fit failed")
      ⟨48, [⟨0, 400⟩, ⟨30, 300⟩]⟩ = none := by
  refine ⟨?_, ?_, ?_⟩ <;>
    norm_num [calculate_airflow, recent_data, first_CO, last_CO,
      List.getLastD]

/-- C3: for every fitter, room volume and log with at least 2 measurements
whose window has first concentration less than or equal to its last,
calculate_airflow returns none and no fit is attempted (the result is none
for every fitter whatsoever). -/
theorem not_decaying_returns_none (fit : Fitter) (c : AirFlowCalculator)
    (h2 : 2 ≤ c.CO_history.length)
    (hdec : first_CO (recent_data c.CO_history) ≤
      last_CO (recent_data c.CO_history)) :
    calculate_airflow fit c = none := by
  simp only [calculate_airflow]
  rw [if_neg (by omega), if_pos hdec]

theorem not_decaying_returns_none_witness :
    calculate_airflow (fun _ _ => Except.ok (100, 1))
      ⟨10, [⟨0, 100⟩, ⟨10, 100⟩]⟩ = none :=
  not_decaying_returns_none (fun _ _ => Except.ok (100, 1))
    ⟨10, [⟨0, 100⟩, ⟨10, 100⟩]⟩ (by norm_num)
    (by norm_num [recent_data, first_CO, last_CO, List.getLastD])

/-- C9: for every input, an optimizer failure during curve fitting is
converted into the no-result outcome none returned to the caller; no
exception escapes calculate_airflow and no partial estimate is produced on a
failed fit. -/
theorem fit_error_returns_none (fit : Fitter) (c : AirFlowCalculator)
    (e : String)
    (hfit : fit (recent_data c.CO_history)
      (first_CO (recent_data c.CO_history), 0.001) = Except.error e) :
    calculate_airflow fit c = none := by
  by_cases h2 : c.CO_history.length < 2
  · simp only [calculate_airflow]
    rw [if_pos h2]
  · by_cases hdec : first_CO (recent_data c.CO_history) ≤
      last_CO (recent_data c.CO_history)
    · simp only [calculate_airflow]
      rw [if_neg h2, if_pos hdec]
    · simp only [calculate_airflow]
      rw [if_neg h2, if_neg hdec, hfit]

theorem fit_error_returns_none_witness :
    calculate_airflow (fun _ _ => Except.error "singular matrix")
      ⟨30, [⟨0, 500⟩, ⟨60, 450⟩]⟩ = none :=
  fit_error_returns_none (fun _ _ => Except.error "singular matrix")
    ⟨30, [⟨0, 500⟩, ⟨60, 450⟩]⟩ "singular matrix" rfl

/-- C5: windowing - add_measurement appends in insertion order; the fitting
window recent_data is a suffix of the log of length min 10 (log length),
equal to the spec-worded latest_window 10; and calculate_airflow consults
the fitter only on that window, so two fitters agreeing there give the same
result. -/
theorem window_selection_latest_ten :
    (∀ (c : AirFlowCalculator) (t v : ℝ),
      (add_measurement c t v).CO_history = c.CO_history ++ [⟨t, v⟩]) ∧
    (∀ log : List Measurement,
      recent_data log <:+ log ∧
      (recent_data log).length = min 10 log.length ∧
      recent_data log = latest_window 10 log) ∧
    (∀ (fit fit' : Fitter) (c : AirFlowCalculator),
      (∀ p0, fit (recent_data c.CO_history) p0 =
        fit' (recent_data c.CO_history) p0) →
      calculate_airflow fit c = calculate_airflow fit' c) := by
  refine ⟨fun c t v => rfl, fun log => ⟨?_, ?_, ?_⟩, ?_⟩
  · exact List.drop_suffix _ _
  · rw [recent_data, List.length_drop]
    omega
  · rw [recent_data, latest_window]
    split_ifs with h
    · rw [Nat.sub_eq_zero_of_le h, List.drop_zero]
    · rfl
  · intro fit fit' c h
    simp only [calculate_airflow]
    rw [h]

theorem window_selection_latest_ten_witness :
    (add_measurement ⟨48, []⟩ 0 400).CO_history = [] ++ [⟨0, 400⟩] ∧
    recent_data [⟨0, 400⟩] = latest_window 10 [⟨0, 400⟩] ∧
    calculate_airflow (fun _ _ => Except.ok (1, 1)) ⟨48, [⟨0, 400⟩]⟩ =
      calculate_airflow (fun _ _ => Except.ok (1, 1)) ⟨48, [⟨0, 400⟩]⟩ :=
  ⟨window_selection_latest_ten.1 ⟨48, []⟩ 0 400,
    (window_selection_latest_ten.2.1 [⟨0, 400⟩]).2.2,
    window_selection_latest_ten.2.2 (fun _ _ => Except.ok (1, 1))
      (fun _ _ => Except.ok (1, 1)) ⟨48, [⟨0, 400⟩]⟩ (fun _ => rfl)⟩

/-- C6: every successful estimate is the pure function of the fitted lambda
and the constructor room volume: ACH = lambda * 3600,
airflow_m3h = ACH * room_volume and airflow_CFM = airflow_m3h * 0.588. -/
theorem airflow_derivation_formulas (fit : Fitter) (c : AirFlowCalculator)
    (C0 lam : ℝ) (est : AirflowEstimate)
    (hfit : fit (recent_data c.CO_history)
      (first_CO (recent_data c.CO_history), 0.001) = Except.ok (C0, lam))
    (hsome : calculate_airflow fit c = some est) :
    est.ACH = lam * 3600 ∧ est.airflow_m3h = est.ACH * c.room_volume ∧
      est.airflow_CFM = est.airflow_m3h * 0.588 := by
  obtain ⟨C0', lam', _, _, hfit', hest⟩ := calculate_airflow_some hsome
  rw [hfit] at hfit'
  obtain ⟨rfl, rfl⟩ : C0 = C0' ∧ lam = lam' := by
    have := Except.ok.inj hfit'
    exact ⟨congrArg Prod.fst this, congrArg Prod.snd this⟩
  rw [hest]
  exact ⟨rfl, rfl, rfl⟩

theorem airflow_derivation_formulas_witness :
    (⟨2 * 3600, 2 * 3600 * 48, 2 * 3600 * 48 * 0.588,
      quant_confidence "low" Constants.NUM_FURNITURE
        Constants.INDOOR_VENT_SPEED Constants.PEOPLE⟩ : AirflowEstimate).ACH
        = 2 * 3600 ∧
    (⟨2 * 3600, 2 * 3600 * 48, 2 * 3600 * 48 * 0.588,
      quant_confidence "low" Constants.NUM_FURNITURE
        Constants.INDOOR_VENT_SPEED Constants.PEOPLE⟩ :
          AirflowEstimate).airflow_m3h = 2 * 3600 * 48 ∧
    (⟨2 * 3600, 2 * 3600 * 48, 2 * 3600 * 48 * 0.588,
      quant_confidence "low" Constants.NUM_FURNITURE
        Constants.INDOOR_VENT_SPEED Constants.PEOPLE⟩ :
          AirflowEstimate).airflow_CFM = 2 * 3600 * 48 * 0.588 :=
  airflow_derivation_formulas (fun _ _ => Except.ok (400, 2))
    ⟨48, [⟨0, 400⟩, ⟨30, 300⟩]⟩ 400 2 _ rfl
    (by
      have h := @calculate_airflow_ok (fun _ _ => Except.ok (400, 2))
        ⟨48, [⟨0, 400⟩, ⟨30, 300⟩]⟩ 400 2
        (by norm_num)
        (by norm_num [recent_data, first_CO, last_CO, List.getLastD]) rfl
      simpa [recent_data] using h)

/-- C7: the confidence of every successful estimate is computed by exactly
the spec algorithm confidence_spec: bucket high iff the window has at least
5 samples, base 50 plus or minus 25, additive term furniture*3 +
vent_speed*2 + occupants*15, sigmoid, rounding to 2 decimals - applied to
the hard-coded inhibitor constants. -/
theorem confidence_algorithm_matches_spec (fit : Fitter)
    (c : AirFlowCalculator) (est : AirflowEstimate)
    (hsome : calculate_airflow fit c = some est) :
    est.confidence = confidence_spec (recent_data c.CO_history).length
      Constants.NUM_FURNITURE Constants.INDOOR_VENT_SPEED
      Constants.PEOPLE := by
  obtain ⟨C0, lam, _, _, _, hest⟩ := calculate_airflow_some hsome
  rw [hest]
  exact quant_confidence_eq_spec _ _ _ _

theorem confidence_algorithm_matches_spec_witness :
    (⟨3 * 3600, 3 * 3600 * 60, 3 * 3600 * 60 * 0.588,
      quant_confidence "low" Constants.NUM_FURNITURE
        Constants.INDOOR_VENT_SPEED Constants.PEOPLE⟩ :
          AirflowEstimate).confidence =
      confidence_spec (recent_data
        [⟨0, 600⟩, ⟨30, 500⟩]).length Constants.NUM_FURNITURE
        Constants.INDOOR_VENT_SPEED Constants.PEOPLE :=
  confidence_algorithm_matches_spec (fun _ _ => Except.ok (600, 3))
    ⟨60, [⟨0, 600⟩, ⟨30, 500⟩]⟩ _
    (by
      have h := @calculate_airflow_ok (fun _ _ => Except.ok (600, 3))
        ⟨60, [⟨0, 600⟩, ⟨30, 500⟩]⟩ 600 3
        (by norm_num)
        (by norm_num [recent_data, first_CO, last_CO, List.getLastD]) rfl
      simpa [recent_data] using h)

/-- C8: the sigmoid normalization followed by rounding to 2 decimals always
lands in the closed interval from 0 to 1, and consequently the confidence
field of every successful estimate lies in that interval. -/
theorem confidence_in_unit_interval :
    (∀ x : ℝ, 0 ≤ round2 (sigmoid x) ∧ round2 (sigmoid x) ≤ 1) ∧
    (∀ (fit : Fitter) (c : AirFlowCalculator) (est : AirflowEstimate),
      calculate_airflow fit c = some est →
      0 ≤ est.confidence ∧ est.confidence ≤ 1) := by
  constructor
  · intro x
    exact round2_mem_unit (le_of_lt (sigmoid_pos x))
      (le_of_lt (sigmoid_lt_one x))
  · intro fit c est hsome
    obtain ⟨C0, lam, _, _, _, hest⟩ := calculate_airflow_some hsome
    rw [hest]
    exact quant_confidence_mem_unit _ _ _ _

theorem confidence_in_unit_interval_witness :
    (0 ≤ round2 (sigmoid 0) ∧ round2 (sigmoid 0) ≤ 1) ∧
    (0 ≤ (⟨1 * 3600, 1 * 3600 * 25, 1 * 3600 * 25 * 0.588,
      quant_confidence "low" Constants.NUM_FURNITURE
        Constants.INDOOR_VENT_SPEED Constants.PEOPLE⟩ :
          AirflowEstimate).confidence ∧
      (⟨1 * 3600, 1 * 3600 * 25, 1 * 3600 * 25 * 0.588,
        quant_confidence "low" Constants.NUM_FURNITURE
          Constants.INDOOR_VENT_SPEED Constants.PEOPLE⟩ :
            AirflowEstimate).confidence ≤ 1) :=
  ⟨confidence_in_unit_interval.1 0,
    confidence_in_unit_interval.2 (fun _ _ => Except.ok (800, 1))
      ⟨25, [⟨0, 800⟩, ⟨120, 700⟩]⟩ _
      (by
        have h := @calculate_airflow_ok (fun _ _ => Except.ok (800, 1))
          ⟨25, [⟨0, 800⟩, ⟨120, 700⟩]⟩ 800 1
          (by norm_num)
          (by norm_num [recent_data, first_CO, last_CO, List.getLastD]) rfl
        simpa [recent_data] using h)⟩

/-- C10: the confidence of every successful estimate equals exactly 1,
independent of the room volume and of the measurement data: the inhibitor
inputs are the hard-coded module constants, the raw score is 104 in the low
bucket and 154 in the high bucket, and the rounded sigmoid of either is 1. -/
theorem confidence_always_one :
    (∀ (fit : Fitter) (c : AirFlowCalculator) (est : AirflowEstimate),
      calculate_airflow fit c = some est → est.confidence = 1) ∧
    quant_confidence "low" Constants.NUM_FURNITURE
      Constants.INDOOR_VENT_SPEED Constants.PEOPLE =
        round2 (sigmoid 104) ∧
    quant_confidence "high" Constants.NUM_FURNITURE
      Constants.INDOOR_VENT_SPEED Constants.PEOPLE =
        round2 (sigmoid 154) ∧
    round2 (sigmoid 104) = 1 ∧ round2 (sigmoid 154) = 1 := by
  refine ⟨?_, ?_, ?_, ?_, ?_⟩
  · intro fit c est hsome
    obtain ⟨C0, lam, _, _, _, hest⟩ := calculate_airflow_some hsome
    rw [hest]
    exact quant_confidence_eq_one _
  · unfold quant_confidence Constants.NUM_FURNITURE
      Constants.INDOOR_VENT_SPEED Constants.PEOPLE
      AirFlowInhibitorWeights.FURNITURE AirFlowInhibitorWeights.NUM_FANS
      AirFlowInhibitorWeights.RESIDENTIAL_CFM
    rw [if_pos rfl]
    norm_num
  · unfold quant_confidence Constants.NUM_FURNITURE
      Constants.INDOOR_VENT_SPEED Constants.PEOPLE
      AirFlowInhibitorWeights.FURNITURE AirFlowInhibitorWeights.NUM_FANS
      AirFlowInhibitorWeights.RESIDENTIAL_CFM
    rw [if_neg (by simp)]
    norm_num
  · exact round2_sigmoid_eq_one (by norm_num)
  · exact round2_sigmoid_eq_one (by norm_num)

theorem confidence_always_one_witness :
    (⟨5 * 3600, 5 * 3600 * 20, 5 * 3600 * 20 * 0.588,
      quant_confidence "high" Constants.NUM_FURNITURE
        Constants.INDOOR_VENT_SPEED Constants.PEOPLE⟩ :
          AirflowEstimate).confidence = 1 :=
  confidence_always_one.1 (fun _ _ => Except.ok (500, 5))
    ⟨20, [⟨0, 500⟩, ⟨10, 480⟩, ⟨20, 460⟩, ⟨30, 440⟩, ⟨40, 420⟩]⟩ _
    (by
      have h := @calculate_airflow_ok (fun _ _ => Except.ok (500, 5))
        ⟨20, [⟨0, 500⟩, ⟨10, 480⟩, ⟨20, 460⟩, ⟨30, 440⟩, ⟨40, 420⟩]⟩ 500 5
        (by norm_num)
        (by norm_num [recent_data, first_CO, last_CO, List.getLastD]) rfl
      simpa [recent_data] using h)

/-- C1 (counterexample to the claim as stated): a fit yielding the decay
constant -1 (not positive) is not treated as a failure - calculate_airflow
still returns an estimate, whose ACH, airflow_m3h and airflow_CFM are all
negative. -/
theorem nonpositive_lambda_estimate_emitted :
    calculate_airflow (fun _ _ => Except.ok (350, -1))
      ⟨48, [⟨0, 350⟩, ⟨60, 330⟩]⟩ =
      some ⟨-3600, -172800, -101606.4, 1⟩ ∧ (-3600 : ℝ) < 0 := by
  constructor
  · have h := @calculate_airflow_ok (fun _ _ => Except.ok (350, -1))
      ⟨48, [⟨0, 350⟩, ⟨60, 330⟩]⟩ 350 (-1)
      (by norm_num)
      (by norm_num [recent_data, first_CO, last_CO, List.getLastD]) rfl
    rw [h]
    norm_num [recent_data, quant_confidence_eq_one]
  · norm_num

/-- C1 (amended): calculate_airflow applies no validation to the fitted
decay constant; the estimate fields are strictly positive exactly when the
fitter returned a positive lambda (and the room volume is positive), the
gate claimed by the spec being absent from the code. -/
theorem estimate_positive_of_lambda_pos (fit : Fitter)
    (c : AirFlowCalculator) (C0 lam : ℝ) (est : AirflowEstimate)
    (hfit : fit (recent_data c.CO_history)
      (first_CO (recent_data c.CO_history), 0.001) = Except.ok (C0, lam))
    (hsome : calculate_airflow fit c = some est)
    (hlam : 0 < lam) (hvol : 0 < c.room_volume) :
    0 < est.ACH ∧ 0 < est.airflow_m3h ∧ 0 < est.airflow_CFM := by
  obtain ⟨C0', lam', _, _, hfit', hest⟩ := calculate_airflow_some hsome
  rw [hfit] at hfit'
  obtain ⟨rfl, rfl⟩ : C0 = C0' ∧ lam = lam' := by
    have := Except.ok.inj hfit'
    exact ⟨congrArg Prod.fst this, congrArg Prod.snd this⟩
  rw [hest]
  refine ⟨by positivity, by positivity, by positivity⟩

theorem estimate_positive_of_lambda_pos_witness :
    0 < (⟨0.001 * 3600, 0.001 * 3600 * 48, 0.001 * 3600 * 48 * 0.588,
      quant_confidence "low" Constants.NUM_FURNITURE
        Constants.INDOOR_VENT_SPEED Constants.PEOPLE⟩ :
          AirflowEstimate).ACH ∧
    0 < (⟨0.001 * 3600, 0.001 * 3600 * 48, 0.001 * 3600 * 48 * 0.588,
      quant_confidence "low" Constants.NUM_FURNITURE
        Constants.INDOOR_VENT_SPEED Constants.PEOPLE⟩ :
          AirflowEstimate).airflow_m3h ∧
    0 < (⟨0.001 * 3600, 0.001 * 3600 * 48, 0.001 * 3600 * 48 * 0.588,
      quant_confidence "low" Constants.NUM_FURNITURE
        Constants.INDOOR_VENT_SPEED Constants.PEOPLE⟩ :
          AirflowEstimate).airflow_CFM :=
  estimate_positive_of_lambda_pos (fun _ _ => Except.ok (400, 0.001))
    ⟨48, [⟨0, 400⟩, ⟨30, 390⟩]⟩ 400 0.001 _ rfl
    (by
      have h := @calculate_airflow_ok (fun _ _ => Except.ok (400, 0.001))
        ⟨48, [⟨0, 400⟩, ⟨30, 390⟩]⟩ 400 0.001
        (by norm_num)
        (by norm_num [recent_data, first_CO, last_CO, List.getLastD]) rfl
      simpa [recent_data] using h)
    (by norm_num) (by norm_num)

/-- C4: round-trip of the fit - on a window generated exactly by
C(t) = C0 * exp(-lam * (t - t0)) with C0, lam positive and at least one
timestamp distinct from t0, any fitted parameters whose sum of squared
residuals is at most that of the generating pair (the least-squares
contract of the fitter, modelled from the spec) are exactly the generating
pair, a fortiori within 1 percent, and the derived ACH is lam * 3600. -/
theorem fit_roundtrip_exact (hist w : List Measurement)
    (C0 lam C0f lamf : ℝ)
    (hw : w = recent_data hist) (hlen : 2 ≤ w.length)
    (hC0 : 0 < C0) (hlam : 0 < lam)
    (hgen : ∀ m ∈ w, m.CO_ppm = decay (t_first w) m.timestamp C0 lam)
    (hsep : ∃ m ∈ w, m.timestamp ≠ t_first w)
    (hfit : SSR w (t_first w) C0f lamf ≤ SSR w (t_first w) C0 lam) :
    C0f = C0 ∧ lamf = lam ∧ |C0f - C0| ≤ C0 / 100 ∧
      |lamf - lam| ≤ lam / 100 ∧ lamf * 3600 = lam * 3600 := by
  have hSSRgen : SSR w (t_first w) C0 lam = 0 := by
    unfold SSR
    apply List.sum_eq_zero
    intro x hx
    obtain ⟨m, hm, rfl⟩ := List.mem_map.mp hx
    rw [hgen m hm]
    ring
  have hnonneg : 0 ≤ SSR w (t_first w) C0f lamf := by
    unfold SSR
    apply List.sum_nonneg
    intro x hx
    obtain ⟨m, hm, rfl⟩ := List.mem_map.mp hx
    positivity
  have hSSR0 : SSR w (t_first w) C0f lamf = 0 :=
    le_antisymm (by rw [hSSRgen] at hfit; exact hfit) hnonneg
  have hres : ∀ m ∈ w,
      m.CO_ppm = decay (t_first w) m.timestamp C0f lamf := by
    intro m hm
    have hterm : (m.CO_ppm - decay (t_first w) m.timestamp C0f lamf) ^ 2 ≤
        SSR w (t_first w) C0f lamf := by
      unfold SSR
      apply List.single_le_sum
      · intro x hx
        obtain ⟨m', hm', rfl⟩ := List.mem_map.mp hx
        positivity
      · exact List.mem_map.mpr ⟨m, hm, rfl⟩
    have hsq : (m.CO_ppm - decay (t_first w) m.timestamp C0f lamf) ^ 2 = 0 :=
      le_antisymm (hSSR0 ▸ hterm) (by positivity)
    have := sq_eq_zero_iff.mp hsq
    linarith [sub_eq_zero.mp this]
  have hne : w ≠ [] := by
    intro hnil
    rw [hnil] at hlen
    simp at hlen
  obtain ⟨m0, l', hcons⟩ := List.exists_cons_of_ne_nil hne
  have ht0 : t_first w = m0.timestamp := by
    rw [hcons]
    simp [t_first]
  have hm0 : m0 ∈ w := by
    rw [hcons]
    exact List.mem_cons_self _ _
  have d1 : decay m0.timestamp m0.timestamp C0 lam = C0 := by
    unfold decay
    simp
  have d2 : decay m0.timestamp m0.timestamp C0f lamf = C0f := by
    unfold decay
    simp
  have e1 := hgen m0 hm0
  have e2 := hres m0 hm0
  rw [ht0, d1] at e1
  rw [ht0, d2] at e2
  have hC0f : C0f = C0 := by rw [← e1, ← e2]
  obtain ⟨m1, hm1, hne1⟩ := hsep
  have f1 := hgen m1 hm1
  have f2 := hres m1 hm1
  rw [ht0] at f1 f2 hne1
  unfold decay at f1 f2
  rw [hC0f] at f2
  have hexp : Real.exp (-lam * (m1.timestamp - m0.timestamp)) =
      Real.exp (-lamf * (m1.timestamp - m0.timestamp)) := by
    have h := f1.symm.trans f2
    exact mul_left_cancel₀ (ne_of_gt hC0) h
  have hargs := Real.exp_eq_exp.mp hexp
  have hd : m1.timestamp - m0.timestamp ≠ 0 := sub_ne_zero_of_ne hne1
  have hlamf : lamf = lam := by
    have := mul_right_cancel₀ hd hargs
    linarith
  refine ⟨hC0f, hlamf, ?_, ?_, by rw [hlamf]⟩
  · rw [hC0f, sub_self, abs_zero]
    positivity
  · rw [hlamf, sub_self, abs_zero]
    positivity

theorem fit_roundtrip_exact_witness :
    (2 : ℝ) = 2 ∧ (1 : ℝ) = 1 ∧ |(2 : ℝ) - 2| ≤ 2 / 100 ∧
      |(1 : ℝ) - 1| ≤ 1 / 100 ∧ (1 : ℝ) * 3600 = 1 * 3600 :=
  fit_roundtrip_exact [⟨0, 2⟩, ⟨1, 2 * Real.exp (-1)⟩]
    [⟨0, 2⟩, ⟨1, 2 * Real.exp (-1)⟩] 2 1 2 1
    (by simp [recent_data])
    (by norm_num)
    (by norm_num) (by norm_num)
    (by
      intro m hm
      simp only [List.mem_cons, List.not_mem_nil, or_false] at hm
      rcases hm with rfl | rfl
      · norm_num [decay, t_first]
      · norm_num [decay, t_first])
    ⟨⟨1, 2 * Real.exp (-1)⟩, by simp, by norm_num [t_first]⟩
    le_rfl

end AirFlow
